import Mathlib

/-!
Shallow embedding of the AHT10 temperature/humidity sensor driver
(`src/lib.rs`).  The underlying I2C transport and delay provider are
abstract capabilities; we model them as an oracle (`Bus`) supplying the
outcome of each transaction, and each driver operation additionally
returns the list of transport/delay events it issued, in order.  Machine
integers (`u8`, `u16`, `u32`) are modelled as `Nat`, with the bitwise
operations written exactly as in the source; `as u8` casts are `% 256`.
The floating-point conversion methods (`Humidity::rh`,
`Temperature::celsius`) are IEEE-754 `f32` computations and are not
embedded.
-/

namespace AHT10Spec

/-- Fixed 7-bit device address (`I2C_ADDRESS` in the source). -/
def I2C_ADDRESS : Nat := 0x38

/-- Command opcodes (`enum Command` in the source). -/
inductive Command where
  | Calibrate
  | GetRaw
  | GetCT
  | Reset
deriving DecidableEq

/-- Wire encoding of each opcode, from the `repr(u8)` discriminants. -/
def Command.toByte : Command → Nat
  | .Calibrate => 0b11100001
  | .GetRaw => 0b10101000
  | .GetCT => 0b10101100
  | .Reset => 0b10111010

namespace StatusFlags

/-- Status bit: sensor busy (`BUSY = 1 << 7`). -/
def BUSY : Nat := 1 <<< 7

/-- Status bits: mode (`MODE = (1 << 6) | (1 << 5)`). -/
def MODE : Nat := (1 <<< 6) ||| (1 <<< 5)

/-- Status bit: crc (`CRC = 1 << 4`). -/
def CRC : Nat := 1 <<< 4

/-- Status bit: calibration enabled (`CALIBRATION_ENABLE = 1 << 3`). -/
def CALIBRATION_ENABLE : Nat := 1 <<< 3

/-- Status bit: fifo enabled (`FIFO_ENABLE = 1 << 2`). -/
def FIFO_ENABLE : Nat := 1 <<< 2

/-- Status bit: fifo full (`FIFO_FULL = 1 << 1`). -/
def FIFO_FULL : Nat := 1 <<< 1

/-- Status bit: fifo empty (`FIFO_EMPTY = 1 << 0`). -/
def FIFO_EMPTY : Nat := 1 <<< 0

/-- The `bitflags` crate's `contains`: `(self.bits & other.bits) == other.bits`. -/
def contains (bits flag : Nat) : Bool := bits &&& flag == flag

end StatusFlags

/-- Driver error (`enum Error<E>` in the source). -/
inductive Error (E : Type) where
  | Uncalibrated : Error E
  | BusError : E → Error E
deriving DecidableEq

/-- Humidity reading (`struct Humidity { h: u32 }`). -/
structure Humidity where
  h : Nat
deriving DecidableEq

/-- Raw humidity accessor (`Humidity::raw`, returns `self.h`). -/
def Humidity.raw (x : Humidity) : Nat := x.h

/-- Temperature reading (`struct Temperature { t: u32 }`). -/
structure Temperature where
  t : Nat
deriving DecidableEq

/-- Raw temperature accessor (`Temperature::raw`, returns `self.t`). -/
def Temperature.raw (x : Temperature) : Nat := x.t

/-- A 7-byte response buffer (`buf: [u8; 7]` filled by `write_read`). -/
structure Resp where
  b0 : Nat
  b1 : Nat
  b2 : Nat
  b3 : Nat
  b4 : Nat
  b5 : Nat
  b6 : Nat
deriving DecidableEq

/-- All seven entries of the buffer are bytes (`u8` values). -/
def Resp.wf (r : Resp) : Prop :=
  r.b0 < 256 ∧ r.b1 < 256 ∧ r.b2 < 256 ∧ r.b3 < 256 ∧ r.b4 < 256 ∧ r.b5 < 256 ∧ r.b6 < 256

instance (r : Resp) : Decidable r.wf := by
  unfold Resp.wf
  infer_instance

/-- One observable interaction with the outside world: a plain I2C write,
a combined write-then-read (recording the requested response length), or
a delay request in milliseconds. -/
inductive Event where
  | write (addr : Nat) (bytes : List Nat)
  | writeRead (addr : Nat) (bytes : List Nat) (respLen : Nat)
  | delayMs (ms : Nat)
deriving DecidableEq

/-- Oracle for the abstract I2C transport: the outcome of each write and
each write-then-read transaction.  Delays cannot fail and return nothing,
so they need no oracle entry. -/
structure Bus (E : Type) where
  write : Nat → List Nat → Except E Unit
  writeRead : Nat → List Nat → Nat → Except E Resp

/-- The 3-byte payload built by `AHT10::write_cmd`:
`[cmd as u8, (dat >> 8) as u8, (dat & 0xff) as u8]` with `dat: u16`. -/
def cmdBytes (cmd : Command) (dat : Nat) : List Nat :=
  [cmd.toByte, (dat >>> 8) % 256, dat &&& 0xff]

/-- `AHT10::write_cmd`: one I2C write of `cmdBytes` to `I2C_ADDRESS`. -/
def write_cmd {E : Type} (bus : Bus E) (cmd : Command) (dat : Nat) :
    Except E Unit × List Event :=
  (bus.write I2C_ADDRESS (cmdBytes cmd dat),
   [Event.write I2C_ADDRESS (cmdBytes cmd dat)])

/-- `AHT10::new`: `write_cmd(GetRaw, 0)?; delay_ms(300); write_cmd(Calibrate, 0x0800)?;
delay_ms(300)`.  The returned driver carries no observable state beyond its
owned resources, so success is `Unit`. -/
def new {E : Type} (bus : Bus E) : Except E Unit × List Event :=
  match write_cmd bus Command.GetRaw 0 with
  | (Except.error e, tr1) => (Except.error e, tr1)
  | (Except.ok _, tr1) =>
    match write_cmd bus Command.Calibrate 0x0800 with
    | (Except.error e, tr2) =>
      (Except.error e, tr1 ++ [Event.delayMs 300] ++ tr2)
    | (Except.ok _, tr2) =>
      (Except.ok (), tr1 ++ [Event.delayMs 300] ++ tr2 ++ [Event.delayMs 300])

/-- `AHT10::reset`: `write_cmd(Reset, 0)?; delay_ms(20)`. -/
def reset {E : Type} (bus : Bus E) : Except E Unit × List Event :=
  match write_cmd bus Command.Reset 0 with
  | (Except.error e, tr1) => (Except.error e, tr1)
  | (Except.ok _, tr1) => (Except.ok (), tr1 ++ [Event.delayMs 20])

/-- The 3-byte write payload of `AHT10::read`:
`[Command::GetCT as u8, 0b11111111, 0]`. -/
def readCmdBytes : List Nat := [Command.GetCT.toByte, 0b11111111, 0]

/-- `AHT10::read`: one combined write-then-read of `readCmdBytes` with a 7-byte
response buffer, then the status check and the bit-packed decode of the
humidity and temperature raw counts. -/
def read {E : Type} (bus : Bus E) :
    Except (Error E) (Humidity × Temperature) × List Event :=
  match bus.writeRead I2C_ADDRESS readCmdBytes 7 with
  | Except.error e =>
    (Except.error (Error.BusError e), [Event.writeRead I2C_ADDRESS readCmdBytes 7])
  | Except.ok buf =>
    if ! StatusFlags.contains buf.b0 StatusFlags.CALIBRATION_ENABLE then
      (Except.error Error.Uncalibrated, [Event.writeRead I2C_ADDRESS readCmdBytes 7])
    else
      (Except.ok
        (⟨(buf.b1 <<< 12) ||| (buf.b2 <<< 4) ||| (buf.b3 >>> 4)⟩,
         ⟨((buf.b3 &&& 0x0f) <<< 16) ||| (buf.b4 <<< 8) ||| buf.b5⟩),
       [Event.writeRead I2C_ADDRESS readCmdBytes 7])

/-- Concrete response buffer: status byte has only CALIBRATION_ENABLE set. -/
def respOkA : Resp := ⟨0x08, 0x19, 0x99, 0x9A, 0x19, 0x99, 0x00⟩

/-- Concrete response buffer: BUSY and CALIBRATION_ENABLE set, and a
different final (crc) byte than `respOkA`. -/
def respBusy : Resp := ⟨0x88, 0x19, 0x99, 0x9A, 0x19, 0x99, 0x37⟩

/-- Concrete response buffer: every status bit except CALIBRATION_ENABLE set. -/
def respUncal : Resp := ⟨0xF7, 0x01, 0x02, 0x03, 0x04, 0x05, 0x06⟩

/-- Oracle on which every transaction succeeds; reads answer `respOkA`. -/
def busOkA : Bus Unit :=
  ⟨fun _ _ => Except.ok (), fun _ _ _ => Except.ok respOkA⟩

/-- Oracle on which every transaction succeeds; reads answer `respBusy`. -/
def busOkB : Bus Unit :=
  ⟨fun _ _ => Except.ok (), fun _ _ _ => Except.ok respBusy⟩

/-- Oracle on which every transaction succeeds; reads answer `respUncal`. -/
def busUncal : Bus Unit :=
  ⟨fun _ _ => Except.ok (), fun _ _ _ => Except.ok respUncal⟩

/-- Oracle on which every transaction fails. -/
def busErr : Bus Unit :=
  ⟨fun _ _ => Except.error (), fun _ _ _ => Except.error ()⟩

/-- Oracle failing exactly the Calibrate write. -/
def busErrCal : Bus Unit :=
  ⟨fun _ bytes =>
     if bytes == cmdBytes Command.Calibrate 0x0800 then Except.error ()
     else Except.ok (),
   fun _ _ _ => Except.error ()⟩

/-- C1: for every 7-byte response buffer accepted by `read` (CALIBRATION_ENABLE
set in byte 0), the returned humidity raw value equals
`(b1 <<< 12) ||| (b2 <<< 4) ||| (b3 >>> 4)` and the returned temperature raw value
equals `((b3 &&& 0x0f) <<< 16) ||| (b4 <<< 8) ||| b5`, bytes being unsigned 8-bit
values (the `Nat` arithmetic coincides with the source's `u32` arithmetic since
both results stay below `2 ^ 20`). -/
theorem read_decodes_raw {E : Type} (bus : Bus E) (buf : Resp)
    (hbus : bus.writeRead I2C_ADDRESS readCmdBytes 7 = Except.ok buf)
    (_hwf : buf.wf)
    (hcal : StatusFlags.contains buf.b0 StatusFlags.CALIBRATION_ENABLE = true) :
    (read bus).1 =
      Except.ok
        (⟨(buf.b1 <<< 12) ||| (buf.b2 <<< 4) ||| (buf.b3 >>> 4)⟩,
         ⟨((buf.b3 &&& 0x0f) <<< 16) ||| (buf.b4 <<< 8) ||| buf.b5⟩) := by
  simp [read, hbus, hcal]

/-- Witness for C1: a concrete successful bus where `read` decodes the sample
buffer to the expected raw counts. -/
theorem read_decodes_raw_witness :
    (read busOkA).1 = Except.ok (⟨0x19999⟩, ⟨0xA1999⟩) :=
  read_decodes_raw busOkA respOkA rfl (by decide) (by decide)

/-- C2: for every 7-byte response whose status byte has CALIBRATION_ENABLE
cleared, `read` returns the `Uncalibrated` error, whatever the other bytes
hold; no humidity or temperature value is returned. -/
theorem read_uncalibrated {E : Type} (bus : Bus E) (buf : Resp)
    (hbus : bus.writeRead I2C_ADDRESS readCmdBytes 7 = Except.ok buf)
    (hcal : StatusFlags.contains buf.b0 StatusFlags.CALIBRATION_ENABLE = false) :
    (read bus).1 = Except.error Error.Uncalibrated := by
  simp [read, hbus, hcal]

/-- Witness for C2: a response with every status bit but CALIBRATION_ENABLE
set is rejected as uncalibrated. -/
theorem read_uncalibrated_witness :
    (read busUncal).1 = Except.error Error.Uncalibrated :=
  read_uncalibrated busUncal respUncal rfl (by decide)

/-- C4: every call to `read` issues exactly one combined write-then-read
transaction, to address 0x38, with write payload `[GetCT, 0xFF, 0x00]` and a
7-byte response buffer — whatever the oracle answers. -/
theorem read_single_transaction {E : Type} (bus : Bus E) :
    (read bus).2 = [Event.writeRead 0x38 [0xAC, 0xFF, 0x00] 7] := by
  rcases hw : bus.writeRead I2C_ADDRESS readCmdBytes 7 with e | buf
  · simp only [read, hw]
    rfl
  · simp only [read, hw]
    split <;> rfl

/-- C7: the raw accessor returns the integer the value was constructed with,
for both Humidity and Temperature. -/
theorem raw_roundtrip (n : Nat) :
    (Humidity.mk n).raw = n ∧ (Temperature.mk n).raw = n :=
  ⟨rfl, rfl⟩

/-- C3: new issues the GetRaw-trigger write (zero payload) and then the
Calibrate write (payload 0x0800), each followed by a 300 ms delay, and
returns ok when both writes succeed; a failure of the first write
short-circuits without issuing the second write, and either write's
transport error is propagated unchanged. -/
theorem new_protocol {E : Type} (bus : Bus E) :
    (bus.write I2C_ADDRESS (cmdBytes Command.GetRaw 0) = Except.ok () →
     bus.write I2C_ADDRESS (cmdBytes Command.Calibrate 0x0800) = Except.ok () →
     new bus =
       (Except.ok (),
        [Event.write 0x38 [0xA8, 0x00, 0x00], Event.delayMs 300,
         Event.write 0x38 [0xE1, 0x08, 0x00], Event.delayMs 300])) ∧
    (∀ e, bus.write I2C_ADDRESS (cmdBytes Command.GetRaw 0) = Except.error e →
     new bus = (Except.error e, [Event.write 0x38 [0xA8, 0x00, 0x00]])) ∧
    (∀ e, bus.write I2C_ADDRESS (cmdBytes Command.GetRaw 0) = Except.ok () →
     bus.write I2C_ADDRESS (cmdBytes Command.Calibrate 0x0800) = Except.error e →
     new bus =
       (Except.error e,
        [Event.write 0x38 [0xA8, 0x00, 0x00], Event.delayMs 300,
         Event.write 0x38 [0xE1, 0x08, 0x00]])) := by
  refine ⟨fun h1 h2 => ?_, fun e h1 => ?_, fun e h1 h2 => ?_⟩
  · simp only [new, write_cmd, h1, h2]
    rfl
  · simp only [new, write_cmd, h1]
    rfl
  · simp only [new, write_cmd, h1, h2]
    rfl

/-- Witness for C3: the three cases at concrete oracles — both writes
succeed, the first write fails, the second write fails. -/
theorem new_protocol_witness :
    new busOkA =
      (Except.ok (),
       [Event.write 0x38 [0xA8, 0x00, 0x00], Event.delayMs 300,
        Event.write 0x38 [0xE1, 0x08, 0x00], Event.delayMs 300]) ∧
    new busErr = (Except.error (), [Event.write 0x38 [0xA8, 0x00, 0x00]]) ∧
    new busErrCal =
      (Except.error (),
       [Event.write 0x38 [0xA8, 0x00, 0x00], Event.delayMs 300,
        Event.write 0x38 [0xE1, 0x08, 0x00]]) :=
  ⟨(new_protocol busOkA).1 rfl rfl,
   (new_protocol busErr).2.1 () rfl,
   (new_protocol busErrCal).2.2 () rfl rfl⟩

/-- C6: reset issues exactly one write (Reset opcode, zero payload) followed
by one 20 ms delay and returns ok, or propagates the transport error
unchanged after that single write; in neither case does its trace contain a
Calibrate write. -/
theorem reset_protocol {E : Type} (bus : Bus E) :
    (bus.write I2C_ADDRESS (cmdBytes Command.Reset 0) = Except.ok () →
     reset bus =
       (Except.ok (), [Event.write 0x38 [0xBA, 0x00, 0x00], Event.delayMs 20])) ∧
    (∀ e, bus.write I2C_ADDRESS (cmdBytes Command.Reset 0) = Except.error e →
     reset bus = (Except.error e, [Event.write 0x38 [0xBA, 0x00, 0x00]])) ∧
    (∀ a dat, Event.write a (cmdBytes Command.Calibrate dat) ∉ (reset bus).2) := by
  refine ⟨fun h1 => ?_, fun e h1 => ?_, fun a dat => ?_⟩
  · simp only [reset, write_cmd, h1]
    rfl
  · simp only [reset, write_cmd, h1]
    rfl
  · rcases hw : bus.write I2C_ADDRESS (cmdBytes Command.Reset 0) with e | u <;>
    · simp only [reset, write_cmd, hw]
      simp [cmdBytes, Command.toByte]

/-- Witness for C6: reset at a concrete succeeding oracle and at a concrete
failing oracle. -/
theorem reset_protocol_witness :
    reset busOkA =
      (Except.ok (), [Event.write 0x38 [0xBA, 0x00, 0x00], Event.delayMs 20]) ∧
    reset busErr = (Except.error (), [Event.write 0x38 [0xBA, 0x00, 0x00]]) :=
  ⟨(reset_protocol busOkA).1 rfl, (reset_protocol busErr).2.1 () rfl⟩

/-- Bound for the humidity decode: bytes below 256 pack into fewer than
2 ^ 20. -/
theorem hum_formula_lt (b1 b2 b3 : Nat) (h1 : b1 < 256) (h2 : b2 < 256)
    (h3 : b3 < 256) :
    (b1 <<< 12) ||| (b2 <<< 4) ||| (b3 >>> 4) < 1048576 := by
  have e : (1048576 : Nat) = 2 ^ 20 := by norm_num
  rw [e]
  apply Nat.or_lt_two_pow
  apply Nat.or_lt_two_pow
  · rw [Nat.shiftLeft_eq]
    omega
  · rw [Nat.shiftLeft_eq]
    omega
  · rw [Nat.shiftRight_eq_div_pow]
    omega

/-- Bound for the temperature decode: bytes below 256 pack into fewer than
2 ^ 20. -/
theorem temp_formula_lt (b3 b4 b5 : Nat) (h4 : b4 < 256) (h5 : b5 < 256) :
    ((b3 &&& 0x0f) <<< 16) ||| (b4 <<< 8) ||| b5 < 1048576 := by
  have e : (1048576 : Nat) = 2 ^ 20 := by norm_num
  have hand : b3 &&& 0x0f ≤ 15 := Nat.and_le_right
  rw [e]
  apply Nat.or_lt_two_pow
  apply Nat.or_lt_two_pow
  · rw [Nat.shiftLeft_eq]
    omega
  · rw [Nat.shiftLeft_eq]
    omega
  · omega

/-- C8: whatever 7-byte response the transport supplies, any humidity and
temperature pair that read returns has both raw counts below 2 ^ 20 =
1048576. -/
theorem read_raw_in_range {E : Type} (bus : Bus E) (buf : Resp)
    (p : Humidity × Temperature)
    (hbus : bus.writeRead I2C_ADDRESS readCmdBytes 7 = Except.ok buf)
    (hwf : buf.wf)
    (hok : (read bus).1 = Except.ok p) :
    p.1.raw < 1048576 ∧ p.2.raw < 1048576 := by
  obtain ⟨h0, h1, h2, h3, h4, h5, h6⟩ := hwf
  simp only [read, hbus] at hok
  split at hok
  · simp at hok
  · simp only [Except.ok.injEq] at hok
    subst hok
    exact ⟨hum_formula_lt _ _ _ h1 h2 h3, temp_formula_lt _ _ _ h4 h5⟩

/-- Witness for C8: the concrete decoded pair from the sample bus is in
range. -/
theorem read_raw_in_range_witness :
    ((⟨0x19999⟩, ⟨0xA1999⟩) : Humidity × Temperature).1.raw < 1048576 ∧
    ((⟨0x19999⟩, ⟨0xA1999⟩) : Humidity × Temperature).2.raw < 1048576 :=
  read_raw_in_range busOkA respOkA (⟨0x19999⟩, ⟨0xA1999⟩) rfl (by decide) rfl

/-- C10: the outcome of read depends only on the CALIBRATION_ENABLE bit of
the status byte and on bytes 1 through 5: two responses agreeing there —
however they differ in the crc byte 6 and the remaining status bits — give
the same result. -/
theorem read_independent_of_unused_bits {E : Type} (bus1 bus2 : Bus E)
    (buf1 buf2 : Resp)
    (hr1 : bus1.writeRead I2C_ADDRESS readCmdBytes 7 = Except.ok buf1)
    (hr2 : bus2.writeRead I2C_ADDRESS readCmdBytes 7 = Except.ok buf2)
    (hcal : StatusFlags.contains buf1.b0 StatusFlags.CALIBRATION_ENABLE
          = StatusFlags.contains buf2.b0 StatusFlags.CALIBRATION_ENABLE)
    (e1 : buf1.b1 = buf2.b1) (e2 : buf1.b2 = buf2.b2) (e3 : buf1.b3 = buf2.b3)
    (e4 : buf1.b4 = buf2.b4) (e5 : buf1.b5 = buf2.b5) :
    (read bus1).1 = (read bus2).1 := by
  simp only [read, hr1, hr2, hcal, e1, e2, e3, e4, e5]

/-- Witness for C10: a busy response with a different crc byte decodes to
the same successful result as the clean response. -/
theorem read_independent_witness :
    (read busOkA).1 = (read busOkB).1 ∧
    (read busOkB).1 = Except.ok (⟨0x19999⟩, ⟨0xA1999⟩) :=
  ⟨read_independent_of_unused_bits busOkA busOkB respOkA respBusy rfl rfl rfl
     rfl rfl rfl rfl rfl,
   rfl⟩

end AHT10Spec
